import Mathlib

/-!
Verification of the `OmadaAPI` HTTP-client wrapper (`omada_reboot.py`).

The embedding models Python values with the inductive `PyVal` (`None`,
booleans, integers, strings, lists, string-keyed dicts, and opaque
non-JSON-serializable objects carrying their type name).  Python dicts are
insertion-ordered association lists with unique keys; `dictSet` is the
per-key effect of `dict.update` (replace in place, else append) and
`dictGet` is key lookup.  Exceptions are modelled with `Except PyErr`.
Ambient effects are passed explicitly: the current millisecond timestamp
(`datetime.utcnow`) as an `Int` argument, the parsed JSON body of the HTTP
response (`requests.Response.json()`) as a `PyVal` argument, and the
strings typed at an `input()` prompt as arguments.  Dispatched HTTP
requests are returned as an explicit list so that "no request was sent"
is expressible.
-/

set_option autoImplicit false

/-- A Python runtime value, restricted to the shapes this program handles:
`None`, `bool`, `int`, `str`, `list`, string-keyed `dict`, and any other
object (kept opaque apart from its type name, which is all
`safe_json_serialize` looks at). -/
inductive PyVal where
  | none : PyVal
  | bool (b : Bool) : PyVal
  | int (i : Int) : PyVal
  | str (s : String) : PyVal
  | list (xs : List PyVal) : PyVal
  | dict (kvs : List (String × PyVal)) : PyVal
  | other (typeName : String) : PyVal

/-- Python exceptions raised by this program: `TypeError` (bad operand for
`+`, or subscripting a non-dict), `AttributeError` (`.update` on a
non-dict such as `None`), `KeyError` (missing dict key), and `ValueError`
(the explicit `raise` in `makeApiCall`). -/
inductive PyErr where
  | typeError : PyErr
  | attributeError : PyErr
  | keyError (k : String) : PyErr
  | valueError (msg : String) : PyErr
deriving DecidableEq, Repr

/-- Lookup in a Python dict modelled as an insertion-ordered association
list: the value bound to `k`, if any. -/
def dictGet : List (String × PyVal) → String → Option PyVal
  | [], _ => Option.none
  | (k', v') :: rest, k => if k' = k then some v' else dictGet rest k

/-- Binding one key in a Python dict: if `k` is present its value is
replaced in place (position preserved), otherwise `(k, v)` is appended at
the end.  `dict.update {a: x, b: y}` is `dictSet` applied twice, in the
literal's order. -/
def dictSet : List (String × PyVal) → String → PyVal → List (String × PyVal)
  | [], k, v => [(k, v)]
  | (k', v') :: rest, k, v =>
      if k' = k then (k, v) :: rest else (k', v') :: dictSet rest k v

/-- Python `+` at the operand shapes occurring in this program
(string/string and int/int); any other combination raises `TypeError`,
as `str + None` or `None + str` does in Python. -/
def pyAdd : PyVal → PyVal → Except PyErr PyVal
  | PyVal.str a, PyVal.str b => Except.ok (PyVal.str (a ++ b))
  | PyVal.int a, PyVal.int b => Except.ok (PyVal.int (a + b))
  | _, _ => Except.error PyErr.typeError

/-- Python subscript `v[k]` with a string key: a dict yields the bound
value or raises `KeyError`; subscripting any non-dict with a string key
raises `TypeError`. -/
def pySubscript : PyVal → String → Except PyErr PyVal
  | PyVal.dict d, k =>
      match dictGet d k with
      | some v => Except.ok v
      | Option.none => Except.error (PyErr.keyError k)
  | _, _ => Except.error PyErr.typeError

/-- One hexadecimal digit, lower case, as `json.dumps` prints in a
`\uXXXX` escape. -/
def hexDigitChar (n : Nat) : Char :=
  if n < 10 then Char.ofNat (48 + n) else Char.ofNat (87 + (n % 16))

/-- Four-digit hexadecimal rendering of a code point, for `\uXXXX`. -/
def hex4 (n : Nat) : String :=
  String.mk [hexDigitChar (n / 4096 % 16), hexDigitChar (n / 256 % 16),
             hexDigitChar (n / 16 % 16), hexDigitChar (n % 16)]

/-- Model of how `json.dumps` (defaults: `ensure_ascii=True`) escapes one
character inside a string literal: quote, backslash and the common
controls get two-character escapes, other characters outside printable
ASCII get `\uXXXX` (code points in the basic multilingual plane; the
model does not split higher code points into surrogate pairs), and
printable ASCII passes through. -/
def jsonEscapeChar (c : Char) : String :=
  if c = '"' then "\\\""
  else if c = '\\' then "\\\\"
  else if c = '\n' then "\\n"
  else if c = '\t' then "\\t"
  else if c = '\r' then "\\r"
  else if c.toNat < 32 ∨ c.toNat > 126 then "\\u" ++ hex4 c.toNat
  else String.singleton c

/-- A JSON string literal: the escaped characters between double quotes. -/
def jsonQuote (s : String) : String :=
  "\"" ++ String.join (s.data.map jsonEscapeChar) ++ "\""

/-- The placeholder `json.dumps` substitutes via the `default=` callback
in `safe_json_serialize`: `<<non-serializable: TypeName>>`. -/
def nonSerializablePlaceholder (typeName : String) : String :=
  "<<non-serializable: " ++ typeName ++ ">>"

mutual

/-- Model of `json.dumps(obj, default=lambda o: f"<<non-serializable:
...>>")` with no `indent` argument: compact separators `", "` and `": "`,
`null`/`true`/`false` keywords, decimal integers, quoted strings, and the
placeholder string (itself JSON-quoted) wherever a non-serializable
object occurs. -/
def jsonDumps : PyVal → String
  | PyVal.none => "null"
  | PyVal.bool true => "true"
  | PyVal.bool false => "false"
  | PyVal.int i => toString i
  | PyVal.str s => jsonQuote s
  | PyVal.list xs => "[" ++ jsonDumpsList xs ++ "]"
  | PyVal.dict kvs => "\x7b" ++ jsonDumpsDict kvs ++ "\x7d"
  | PyVal.other t => jsonQuote (nonSerializablePlaceholder t)

/-- Comma-separated serialization of a list's elements. -/
def jsonDumpsList : List PyVal → String
  | [] => ""
  | [x] => jsonDumps x
  | x :: y :: xs => jsonDumps x ++ ", " ++ jsonDumpsList (y :: xs)

/-- Comma-separated serialization of a dict's `"key": value` pairs. -/
def jsonDumpsDict : List (String × PyVal) → String
  | [] => ""
  | [(k, v)] => jsonQuote k ++ ": " ++ jsonDumps v
  | (k, v) :: p :: kvs =>
      jsonQuote k ++ ": " ++ jsonDumps v ++ ", " ++ jsonDumpsDict (p :: kvs)

end

/-- `OmadaAPI.safe_json_serialize` (source lines 124-133): serializes with
a `default` callback that replaces each non-serializable object by the
placeholder string; the `indent` parameter is accepted (default 4 at the
call sites) but never forwarded to `json.dumps`, so the body ignores it. -/
def safe_json_serialize (obj : PyVal) (indent : Nat) : String :=
  let _ := indent
  jsonDumps obj

/-- The attributes of an `OmadaAPI` instance.  `base_api_path` is set to
the constant `"/api/v2"` in `__init__` and never reassigned, so it is kept
as a literal in `path_to_url`.  All configuration-derived fields hold
whatever Python value was stored (the YAML loader is untyped), and `token`
starts as `None` until `login` stores the session token. -/
structure OmadaState where
  baseurl : PyVal
  site : PyVal
  verify : PyVal
  login_username : PyVal
  login_password : PyVal
  token : PyVal
  login_token : PyVal

/-- `OmadaAPI.path_to_url` (source lines 54-55):
`self.baseurl + self.base_api_path + path`, left-associated Python `+`
with `base_api_path = "/api/v2"`. -/
def path_to_url (st : OmadaState) (path : PyVal) : Except PyErr PyVal :=
  match pyAdd st.baseurl (PyVal.str "/api/v2") with
  | Except.error e => Except.error e
  | Except.ok a => pyAdd a path

/-- An HTTP request handed to the `requests` session: the verb, the final
URL, the query parameters, and the `data`/`json` bodies (`session.get` is
called without `data`/`json`, which `requests` defaults to `None`). -/
structure Request where
  verb : String
  url : PyVal
  params : PyVal
  body : PyVal
  jsonBody : PyVal

/-- The successful outcome of `makeApiCall`: the dispatched request, the
returned response dict, and the value of the `endpoint_params` object
after the call (the same object the caller passed, mutated in place by
`dict.update`; the `"endpoint_params"` entry of the returned dict aliases
it). -/
structure CallOk where
  request : Request
  response : List (String × PyVal)
  paramsAfter : PyVal

/-- Source lines 79-80: `if not bare_url: url = self.path_to_url(url)`.
The final URL is the argument itself when `bare_url` is truthy, otherwise
the result of `path_to_url`. -/
def resolveUrl (st : OmadaState) (url : PyVal) (bare_url : Bool) :
    Except PyErr PyVal :=
  if bare_url then Except.ok url else path_to_url st url

/-- The value of the caller's `endpoint_params` dict after
`endpoint_params.update({"token": self.token, "_": self.get_timestamp()})`
(source lines 83-86): `"token"` bound first, then `"_"`, in the dict
literal's order. -/
def updatedParams (st : OmadaState) (ts : Int)
    (d : List (String × PyVal)) : List (String × PyVal) :=
  dictSet (dictSet d "token" st.token) "_" (PyVal.int ts)

/-- Source lines 82-86: when `include_token`, `endpoint_params.update(...)`
mutates the caller's dict (raising `AttributeError` when `endpoint_params`
is not a dict, e.g. the default `None`); otherwise `endpoint_params` is
left untouched. -/
def tokenizeParams (st : OmadaState) (endpoint_params : PyVal)
    (include_token : Bool) (ts : Int) : Except PyErr PyVal :=
  if include_token then
    match endpoint_params with
    | PyVal.dict d => Except.ok (PyVal.dict (updatedParams st ts d))
    | _ => Except.error PyErr.attributeError
  else Except.ok endpoint_params

/-- Source lines 88-102: the `mode` dispatch.  `session.get` receives only
`url` and `params` (so `requests` defaults `data`/`json` to `None`);
`session.post`/`session.patch` also receive the `data` and `json`
arguments; any other verb raises `ValueError(f"Unsupported mode {mode}")`
without touching the session. -/
def dispatch (mode : String) (u ps data jsonArg : PyVal) :
    Except PyErr Request :=
  if mode = "GET" then Except.ok ⟨"GET", u, ps, PyVal.none, PyVal.none⟩
  else if mode = "POST" then Except.ok ⟨"POST", u, ps, data, jsonArg⟩
  else if mode = "PATCH" then Except.ok ⟨"PATCH", u, ps, data, jsonArg⟩
  else Except.error (PyErr.valueError ("Unsupported mode " ++ mode))

/-- Source lines 107-113: the dict literal `makeApiCall` returns, built
from the final URL `u`, the (possibly updated) endpoint params `ps`, and
the parsed JSON body `resp`. -/
def responseDict (u ps resp : PyVal) : List (String × PyVal) :=
  [("url", u),
   ("endpoint_params", ps),
   ("endpoint_params_pretty", PyVal.str (safe_json_serialize ps 4)),
   ("json_data", resp),
   ("json_data_pretty", PyVal.str (safe_json_serialize resp 4))]

/-- `OmadaAPI.makeApiCall` (source lines 57-122).  Arguments mirror the
Python signature (`url`, `endpoint_params`, `data`, `json` default to
`None`, modelled as `PyVal.none`; `bare_url` defaults falsy).  `ts` is the
value of `get_timestamp()` and `resp` the parsed JSON body the server
returns for the dispatched request.  Steps, in source order: resolve the
URL (lines 79-80), update the params with token and timestamp (lines
82-86), dispatch on the verb (lines 88-102), parse the body (line 105)
and build the response dict (lines 107-113).  The first component lists
the HTTP requests dispatched during the call, so an error outcome with an
empty list means the exception was raised before anything was sent.
`debug` only prints and has no effect on the result. -/
def makeApiCall (st : OmadaState) (url : PyVal) (mode : String)
    (endpoint_params : PyVal) (data : PyVal) (jsonArg : PyVal)
    (debug : Bool) (include_token : Bool) (bare_url : Bool)
    (ts : Int) (resp : PyVal) : List Request × Except PyErr CallOk :=
  let _ := debug
  match resolveUrl st url bare_url with
  | Except.error e => ([], Except.error e)
  | Except.ok u =>
    match tokenizeParams st endpoint_params include_token ts with
    | Except.error e => ([], Except.error e)
    | Except.ok ps =>
      match dispatch mode u ps data jsonArg with
      | Except.error e => ([], Except.error e)
      | Except.ok req => ([req], Except.ok ⟨req, responseDict u ps resp, ps⟩)

mutual

/-- The object with every non-serializable leaf replaced by its
placeholder string, used to state what the `default=` callback of
`safe_json_serialize` achieves. -/
def replaceNonSerializable : PyVal → PyVal
  | PyVal.none => PyVal.none
  | PyVal.bool b => PyVal.bool b
  | PyVal.int i => PyVal.int i
  | PyVal.str s => PyVal.str s
  | PyVal.list xs => PyVal.list (replaceNonSerializableList xs)
  | PyVal.dict kvs => PyVal.dict (replaceNonSerializableDict kvs)
  | PyVal.other t => PyVal.str (nonSerializablePlaceholder t)

/-- `replaceNonSerializable` mapped over a list's elements. -/
def replaceNonSerializableList : List PyVal → List PyVal
  | [] => []
  | x :: xs => replaceNonSerializable x :: replaceNonSerializableList xs

/-- `replaceNonSerializable` mapped over a dict's values. -/
def replaceNonSerializableDict :
    List (String × PyVal) → List (String × PyVal)
  | [] => []
  | (k, v) :: kvs => (k, replaceNonSerializable v) :: replaceNonSerializableDict kvs

end

/-- `OmadaAPI.login_prompt` (source lines 135-151).  `input()` is read
twice into local variables (`user_input` here), but the values are then
ignored: the endpoint parameters sent to `/login` are the string literals
`"login_username"` and `"login_password"`, the call is a plain
`makeApiCall(url="/login", endpoint_params=...)` (defaults: `GET`,
`include_token=True`, so `self.token`, still `None`, and a timestamp are
also attached), the result is printed, and the function returns the pair
`(None, None)`. -/
def login_prompt (st : OmadaState) (user_input : String × String)
    (ts : Int) (resp : PyVal) : Except PyErr (PyVal × PyVal) :=
  let _ := user_input
  let endpoint_params : PyVal :=
    PyVal.dict [("username", PyVal.str "login_username"),
                ("password", PyVal.str "login_password")]
  match (makeApiCall st (PyVal.str "/login") "GET" endpoint_params
      PyVal.none PyVal.none false true false ts resp).2 with
  | Except.error e => Except.error e
  | Except.ok _ => Except.ok (PyVal.none, PyVal.none)

/-- `OmadaAPI.login` (source lines 153-169): POSTs
`{"username": self.login_username, "password": self.login_password}` as
the JSON body to `/login` with `include_token=False` (and `debug=True`),
stores `result["json_data"]["result"]["token"]` into `self.token`, and
returns that token.  The returned pair is the updated state and the
return value. -/
def login (st : OmadaState) (ts : Int) (resp : PyVal) :
    Except PyErr (OmadaState × PyVal) :=
  let json_dict : PyVal :=
    PyVal.dict [("username", st.login_username),
                ("password", st.login_password)]
  match (makeApiCall st (PyVal.str "/login") "POST" PyVal.none
      PyVal.none json_dict true false false ts resp).2 with
  | Except.error e => Except.error e
  | Except.ok out =>
    match pySubscript (PyVal.dict out.response) "json_data" with
    | Except.error e => Except.error e
    | Except.ok jd =>
      match pySubscript jd "result" with
      | Except.error e => Except.error e
      | Except.ok r =>
        match pySubscript r "token" with
        | Except.error e => Except.error e
        | Except.ok t => Except.ok ({ st with token := t }, t)

/-- `OmadaAPI.__init__` (source lines 12-41).  `config_exists` is
`config_fpath.is_file()` and `cfg` the value `yaml.load` produced for
that file.  If the config file exists, the five settings are subscripted
out of `cfg` and the `baseurl`/`site`/`verify` arguments are never read;
otherwise the arguments are stored and `login_prompt` supplies the
credentials.  Either way a session is created and `login()` runs, its
return value stored in `self.login_token`.  `ts1`/`resp1` feed the
`makeApiCall` inside `login_prompt` (unused in the config branch),
`ts2`/`resp2` the one inside `login`. -/
def initOmada (config_exists : Bool) (cfg : PyVal)
    (baseurl site verify : PyVal) (user_input : String × String)
    (ts1 ts2 : Int) (resp1 resp2 : PyVal) : Except PyErr OmadaState :=
  if config_exists then
    match pySubscript cfg "baseurl" with
    | Except.error e => Except.error e
    | Except.ok b =>
      match pySubscript cfg "site" with
      | Except.error e => Except.error e
      | Except.ok s =>
        match pySubscript cfg "verify" with
        | Except.error e => Except.error e
        | Except.ok v =>
          match pySubscript cfg "username" with
          | Except.error e => Except.error e
          | Except.ok un =>
            match pySubscript cfg "password" with
            | Except.error e => Except.error e
            | Except.ok pw =>
              match login ⟨b, s, v, un, pw, PyVal.none, PyVal.none⟩ ts2 resp2 with
              | Except.error e => Except.error e
              | Except.ok (st2, tok) => Except.ok { st2 with login_token := tok }
  else
    let st0 : OmadaState :=
      ⟨baseurl, site, verify, PyVal.none, PyVal.none, PyVal.none, PyVal.none⟩
    match login_prompt st0 user_input ts1 resp1 with
    | Except.error e => Except.error e
    | Except.ok (u, p) =>
      match login { st0 with login_username := u, login_password := p } ts2 resp2 with
      | Except.error e => Except.error e
      | Except.ok (st2, tok) => Except.ok { st2 with login_token := tok }

/-- A sample client state used to instantiate theorems on concrete
inputs: a string base URL and a string session token. -/
def stSample : OmadaState :=
  ⟨PyVal.str "https://omada.example", PyVal.str "Default", PyVal.bool true,
   PyVal.str "admin", PyVal.str "pw", PyVal.str "TOK", PyVal.none⟩

/-! ## Helper lemmas -/

theorem dictGet_dictSet_self (d : List (String × PyVal)) (k : String)
    (v : PyVal) : dictGet (dictSet d k v) k = some v := by
  induction d with
  | nil => simp [dictSet, dictGet]
  | cons p rest ih =>
      obtain ⟨k', v'⟩ := p
      by_cases h : k' = k
      · simp [dictSet, dictGet, h]
      · simp [dictSet, dictGet, h, ih]

theorem dictGet_dictSet_ne (d : List (String × PyVal)) (k k' : String)
    (v : PyVal) (h : k' ≠ k) :
    dictGet (dictSet d k' v) k = dictGet d k := by
  induction d with
  | nil => simp [dictSet, dictGet, h]
  | cons p rest ih =>
      obtain ⟨k'', v''⟩ := p
      by_cases h2 : k'' = k'
      · subst h2
        simp [dictSet, dictGet, h]
      · by_cases h3 : k'' = k
        · simp [dictSet, dictGet, h2, h3, Ne.symm h]
        · simp [dictSet, dictGet, h2, h3, ih]

theorem strAppend_assoc (a b c : String) : a ++ b ++ c = a ++ (b ++ c) := by
  apply String.ext
  simp

mutual

/-- Serializing any value gives the same string as first replacing every
non-serializable leaf by its placeholder: the `default=` callback makes
the serializer total. -/
theorem jsonDumps_replace (v : PyVal) :
    jsonDumps (replaceNonSerializable v) = jsonDumps v := by
  cases v with
  | none => rfl
  | bool b => rfl
  | int i => rfl
  | str s => rfl
  | list xs => simp [replaceNonSerializable, jsonDumps, jsonDumpsList_replace xs]
  | dict kvs => simp [replaceNonSerializable, jsonDumps, jsonDumpsDict_replace kvs]
  | other t => rfl

theorem jsonDumpsList_replace (xs : List PyVal) :
    jsonDumpsList (replaceNonSerializableList xs) = jsonDumpsList xs := by
  match xs with
  | [] => rfl
  | [x] => simp [replaceNonSerializableList, jsonDumpsList, jsonDumps_replace x]
  | x :: y :: xs =>
      calc jsonDumpsList (replaceNonSerializableList (x :: y :: xs))
          = jsonDumps (replaceNonSerializable x) ++ ", " ++
              jsonDumpsList (replaceNonSerializableList (y :: xs)) := rfl
        _ = jsonDumps x ++ ", " ++ jsonDumpsList (y :: xs) := by
              rw [jsonDumps_replace x, jsonDumpsList_replace (y :: xs)]
        _ = jsonDumpsList (x :: y :: xs) := rfl

theorem jsonDumpsDict_replace (kvs : List (String × PyVal)) :
    jsonDumpsDict (replaceNonSerializableDict kvs) = jsonDumpsDict kvs := by
  match kvs with
  | [] => rfl
  | [(k, v)] => simp [replaceNonSerializableDict, jsonDumpsDict, jsonDumps_replace v]
  | (k, v) :: p :: kvs =>
      calc jsonDumpsDict (replaceNonSerializableDict ((k, v) :: p :: kvs))
          = jsonQuote k ++ ": " ++ jsonDumps (replaceNonSerializable v) ++ ", " ++
              jsonDumpsDict (replaceNonSerializableDict (p :: kvs)) := by
              obtain ⟨k2, v2⟩ := p
              rfl
        _ = jsonQuote k ++ ": " ++ jsonDumps v ++ ", " ++ jsonDumpsDict (p :: kvs) := by
              rw [jsonDumps_replace v, jsonDumpsDict_replace (p :: kvs)]
        _ = jsonDumpsDict ((k, v) :: p :: kvs) := by
              obtain ⟨k2, v2⟩ := p
              rfl

end

/-- Inverting a successful `makeApiCall`: every stage succeeded and the
outcome is built from the stage results. -/
theorem makeApiCall_ok_inv (st : OmadaState) (url : PyVal) (mode : String)
    (eps data jsonArg : PyVal) (dbg inc bare : Bool) (ts : Int)
    (resp : PyVal) (out : CallOk)
    (h : (makeApiCall st url mode eps data jsonArg dbg inc bare ts resp).2 =
      Except.ok out) :
    ∃ u ps req, resolveUrl st url bare = Except.ok u ∧
      tokenizeParams st eps inc ts = Except.ok ps ∧
      dispatch mode u ps data jsonArg = Except.ok req ∧
      out = ⟨req, responseDict u ps resp, ps⟩ := by
  unfold makeApiCall at h
  rcases hu : resolveUrl st url bare with e | u <;> rw [hu] at h <;> dsimp only at h
  · simp at h
  rcases hp : tokenizeParams st eps inc ts with e | ps <;> rw [hp] at h <;> dsimp only at h
  · simp at h
  rcases hd : dispatch mode u ps data jsonArg with e | req <;> rw [hd] at h <;> dsimp only at h
  · simp at h
  simp at h
  exact ⟨u, ps, req, rfl, rfl, hd, h.symm⟩

/-- Inverting a dispatched request: if `makeApiCall` sent `req`, every
stage succeeded, `req` is the dispatch result, and the call returned the
response dict built around `req`. -/
theorem makeApiCall_sent_inv (st : OmadaState) (url : PyVal) (mode : String)
    (eps data jsonArg : PyVal) (dbg inc bare : Bool) (ts : Int)
    (resp : PyVal) (req : Request)
    (h : (makeApiCall st url mode eps data jsonArg dbg inc bare ts resp).1 =
      [req]) :
    ∃ u ps, resolveUrl st url bare = Except.ok u ∧
      tokenizeParams st eps inc ts = Except.ok ps ∧
      dispatch mode u ps data jsonArg = Except.ok req := by
  unfold makeApiCall at h
  rcases hu : resolveUrl st url bare with e | u <;> rw [hu] at h <;> dsimp only at h
  · simp at h
  rcases hp : tokenizeParams st eps inc ts with e | ps <;> rw [hp] at h <;> dsimp only at h
  · simp at h
  rcases hd : dispatch mode u ps data jsonArg with e | req' <;> rw [hd] at h <;> dsimp only at h
  · simp at h
  simp at h
  exact ⟨u, ps, rfl, rfl, h ▸ hd⟩

/-- `login` only writes the `token` field: a successful login returns the
input state with `token` replaced by the returned token. -/
theorem login_ok_inv (st : OmadaState) (ts : Int) (resp : PyVal)
    (st' : OmadaState) (t : PyVal)
    (h : login st ts resp = Except.ok (st', t)) :
    st' = { st with token := t } := by
  unfold login at h
  dsimp only at h
  rcases h1 : (makeApiCall st (PyVal.str "/login") "POST" PyVal.none
      PyVal.none (PyVal.dict [("username", st.login_username),
        ("password", st.login_password)]) true false false ts resp).2
    with e | out <;> rw [h1] at h <;> dsimp only at h
  · simp at h
  rcases h2 : pySubscript (PyVal.dict out.response) "json_data"
    with e | jd <;> rw [h2] at h <;> dsimp only at h
  · simp at h
  rcases h3 : pySubscript jd "result" with e | r <;> rw [h3] at h <;> dsimp only at h
  · simp at h
  rcases h4 : pySubscript r "token" with e | t' <;> rw [h4] at h <;> dsimp only at h
  · simp at h
  simp at h
  obtain ⟨hst, ht⟩ := h
  rw [← hst, ht]

/-- For a successful `dispatch`, the request's URL and parameters are the
resolved URL and the (updated) endpoint parameters, whatever the verb. -/
theorem dispatch_ok_inv (mode : String) (u ps data jsonArg : PyVal)
    (req : Request) (h : dispatch mode u ps data jsonArg = Except.ok req) :
    req.url = u ∧ req.params = ps := by
  unfold dispatch at h
  by_cases h1 : mode = "GET"
  · simp [h1] at h
    rw [← h]
    exact ⟨rfl, rfl⟩
  by_cases h2 : mode = "POST"
  · simp [h1, h2] at h
    rw [← h]
    exact ⟨rfl, rfl⟩
  by_cases h3 : mode = "PATCH"
  · simp [h1, h2, h3] at h
    rw [← h]
    exact ⟨rfl, rfl⟩
  · simp [h1, h2, h3] at h

/-- Composing the three stages: when each succeeds, `makeApiCall`
dispatches exactly the one request and returns the response dict. -/
theorem makeApiCall_eq_ok (st : OmadaState) (url : PyVal) (mode : String)
    (eps data jsonArg : PyVal) (dbg inc bare : Bool) (ts : Int)
    (resp : PyVal) (u ps : PyVal) (req : Request)
    (hu : resolveUrl st url bare = Except.ok u)
    (hp : tokenizeParams st eps inc ts = Except.ok ps)
    (hd : dispatch mode u ps data jsonArg = Except.ok req) :
    makeApiCall st url mode eps data jsonArg dbg inc bare ts resp =
      ([req], Except.ok ⟨req, responseDict u ps resp, ps⟩) := by
  simp [makeApiCall, hu, hp, hd]

/-! ## The claims -/

/-- Claim C10: `safe_json_serialize` is a total function on the modelled
values (so it never raises), the accepted `indent` parameter has no
effect on the result, each non-serializable leaf is serialized exactly as
if it had been replaced by the placeholder string
`<<non-serializable: TypeName>>`, and a bare non-serializable object
serializes to that quoted placeholder. -/
theorem safe_json_serialize_spec :
    (∀ (obj : PyVal) (i j : Nat),
        safe_json_serialize obj i = safe_json_serialize obj j)
    ∧ (∀ (obj : PyVal) (i : Nat),
        safe_json_serialize obj i =
          safe_json_serialize (replaceNonSerializable obj) i)
    ∧ (∀ (t : String) (i : Nat),
        safe_json_serialize (PyVal.other t) i =
          jsonQuote (nonSerializablePlaceholder t)) := by
  refine ⟨fun obj i j => rfl, fun obj i => ?_, fun t i => rfl⟩
  simp [safe_json_serialize, jsonDumps_replace]

/-- Claim C3: every successful `makeApiCall` returns a dict whose
`"json_data"` entry is the parsed JSON response and whose
`"json_data_pretty"` entry is `safe_json_serialize` applied to that same
`"json_data"` value. -/
theorem makeApiCall_returns_raw_and_pretty (st : OmadaState) (url : PyVal)
    (mode : String) (eps data jsonArg : PyVal) (dbg inc bare : Bool)
    (ts : Int) (resp : PyVal) (out : CallOk)
    (h : (makeApiCall st url mode eps data jsonArg dbg inc bare ts resp).2 =
      Except.ok out) :
    dictGet out.response "json_data" = some resp ∧
    dictGet out.response "json_data_pretty" =
      some (PyVal.str (safe_json_serialize resp 4)) := by
  obtain ⟨u, ps, req, hu, hp, hd, hout⟩ :=
    makeApiCall_ok_inv st url mode eps data jsonArg dbg inc bare ts resp out h
  subst hout
  exact ⟨rfl, rfl⟩

/-- Witness for C3: the sample GET call succeeds and its hypotheses hold
at this concrete input. -/
theorem makeApiCall_returns_raw_and_pretty_witness :
    dictGet (CallOk.response
      ⟨⟨"GET", PyVal.str "https://omada.example/api/v2/x",
        PyVal.dict [("token", PyVal.str "TOK"), ("_", PyVal.int 99)],
        PyVal.none, PyVal.none⟩,
       responseDict (PyVal.str "https://omada.example/api/v2/x")
         (PyVal.dict [("token", PyVal.str "TOK"), ("_", PyVal.int 99)])
         (PyVal.dict [("errorCode", PyVal.int 0)]),
       PyVal.dict [("token", PyVal.str "TOK"), ("_", PyVal.int 99)]⟩)
      "json_data" = some (PyVal.dict [("errorCode", PyVal.int 0)]) ∧
    dictGet (CallOk.response
      ⟨⟨"GET", PyVal.str "https://omada.example/api/v2/x",
        PyVal.dict [("token", PyVal.str "TOK"), ("_", PyVal.int 99)],
        PyVal.none, PyVal.none⟩,
       responseDict (PyVal.str "https://omada.example/api/v2/x")
         (PyVal.dict [("token", PyVal.str "TOK"), ("_", PyVal.int 99)])
         (PyVal.dict [("errorCode", PyVal.int 0)]),
       PyVal.dict [("token", PyVal.str "TOK"), ("_", PyVal.int 99)]⟩)
      "json_data_pretty" =
      some (PyVal.str (safe_json_serialize (PyVal.dict [("errorCode", PyVal.int 0)]) 4)) :=
  makeApiCall_returns_raw_and_pretty stSample (PyVal.str "/x") "GET"
    (PyVal.dict []) PyVal.none PyVal.none false true false 99
    (PyVal.dict [("errorCode", PyVal.int 0)]) _ rfl

/-- Claim C8: a `makeApiCall` with `include_token=True` and the default
`endpoint_params=None` raises an exception (the `AttributeError` from
`None.update`, or a `TypeError` from the URL step) before any HTTP
request is dispatched, whatever the other arguments are. -/
theorem makeApiCall_none_params_raises (st : OmadaState) (url : PyVal)
    (mode : String) (data jsonArg : PyVal) (dbg bare : Bool) (ts : Int)
    (resp : PyVal) :
    (makeApiCall st url mode PyVal.none data jsonArg dbg true bare ts resp).1 = []
    ∧ ∃ e, (makeApiCall st url mode PyVal.none data jsonArg dbg true bare ts
        resp).2 = Except.error e := by
  rcases hu : resolveUrl st url bare with e | u
  · exact ⟨by simp [makeApiCall, hu], e, by simp [makeApiCall, hu]⟩
  · have hp : tokenizeParams st PyVal.none true ts =
        Except.error PyErr.attributeError := rfl
    exact ⟨by simp [makeApiCall, hu, hp], PyErr.attributeError,
           by simp [makeApiCall, hu, hp]⟩

/-- Claim C1 as stated is false: `dict.update` overwrites a
caller-supplied `"token"` entry, so the parameters sent do not include
every caller-supplied entry.  Here the caller supplies
`{"token": "attacker"}`, yet the dispatched request carries
`"token": "TOK"` (the stored session token) and the caller's entry is
gone. -/
theorem makeApiCall_overwrites_caller_token :
    (makeApiCall stSample (PyVal.str "/x") "GET"
        (PyVal.dict [("token", PyVal.str "attacker")]) PyVal.none PyVal.none
        false true false 99 (PyVal.dict [])).1 =
      [⟨"GET", PyVal.str "https://omada.example/api/v2/x",
        PyVal.dict [("token", PyVal.str "TOK"), ("_", PyVal.int 99)],
        PyVal.none, PyVal.none⟩]
    ∧ dictGet [("token", PyVal.str "TOK"), ("_", PyVal.int 99)] "token" ≠
        some (PyVal.str "attacker") := by
  refine ⟨rfl, fun h => ?_⟩
  simp [dictGet] at h

/-- Claim C1 (amended): whenever `makeApiCall` with `include_token=True`
and a dict `endpoint_params` dispatches a request, the request's
parameters bind `"token"` to the client's stored session token and `"_"`
to the current timestamp, and agree with the caller's dict on every
other key; caller-supplied `"token"`/`"_"` entries are overwritten. -/
theorem makeApiCall_attaches_token_and_timestamp (st : OmadaState)
    (url : PyVal) (mode : String) (d : List (String × PyVal))
    (data jsonArg : PyVal) (dbg bare : Bool) (ts : Int) (resp : PyVal)
    (req : Request)
    (h : (makeApiCall st url mode (PyVal.dict d) data jsonArg dbg true bare
      ts resp).1 = [req]) :
    req.params = PyVal.dict (updatedParams st ts d)
    ∧ dictGet (updatedParams st ts d) "token" = some st.token
    ∧ dictGet (updatedParams st ts d) "_" = some (PyVal.int ts)
    ∧ ∀ k, k ≠ "token" → k ≠ "_" →
        dictGet (updatedParams st ts d) k = dictGet d k := by
  obtain ⟨u, ps, hu, hp, hd⟩ :=
    makeApiCall_sent_inv st url mode (PyVal.dict d) data jsonArg dbg true bare
      ts resp req h
  have hps : ps = PyVal.dict (updatedParams st ts d) := by
    unfold tokenizeParams at hp
    simp at hp
    exact hp.symm
  subst hps
  refine ⟨(dispatch_ok_inv mode u _ data jsonArg req hd).2, ?_, ?_, ?_⟩
  · rw [updatedParams, dictGet_dictSet_ne _ _ _ _ (by decide),
        dictGet_dictSet_self]
  · rw [updatedParams, dictGet_dictSet_self]
  · intro k hk1 hk2
    rw [updatedParams, dictGet_dictSet_ne _ _ _ _ (Ne.symm hk2),
        dictGet_dictSet_ne _ _ _ _ (Ne.symm hk1)]

/-- Witness for the amended C1 at a concrete call: caller params
`{"a": "b"}`, stored token `"TOK"`, timestamp 99. -/
theorem makeApiCall_attaches_token_and_timestamp_witness :
    Request.params
      ⟨"GET", PyVal.str "https://omada.example/api/v2/x",
       PyVal.dict [("a", PyVal.str "b"), ("token", PyVal.str "TOK"),
         ("_", PyVal.int 99)], PyVal.none, PyVal.none⟩ =
      PyVal.dict (updatedParams stSample 99 [("a", PyVal.str "b")])
    ∧ dictGet (updatedParams stSample 99 [("a", PyVal.str "b")]) "token" =
        some stSample.token
    ∧ dictGet (updatedParams stSample 99 [("a", PyVal.str "b")]) "_" =
        some (PyVal.int 99)
    ∧ ∀ k, k ≠ "token" → k ≠ "_" →
        dictGet (updatedParams stSample 99 [("a", PyVal.str "b")]) k =
          dictGet [("a", PyVal.str "b")] k :=
  makeApiCall_attaches_token_and_timestamp stSample (PyVal.str "/x") "GET"
    [("a", PyVal.str "b")] PyVal.none PyVal.none false false 99
    (PyVal.dict []) _ rfl

/-- Claim C9: with `include_token=True` and a dict argument, the caller's
dict is mutated in place to the token-and-timestamp update (the
`"endpoint_params"` entry of the returned dict is that same object), the
keys `"token"` and `"_"` are added or overwritten, and every other
caller-supplied key keeps its value. -/
theorem makeApiCall_updates_params_in_place (st : OmadaState) (url : PyVal)
    (mode : String) (d : List (String × PyVal)) (data jsonArg : PyVal)
    (dbg bare : Bool) (ts : Int) (resp : PyVal) (out : CallOk)
    (h : (makeApiCall st url mode (PyVal.dict d) data jsonArg dbg true bare
      ts resp).2 = Except.ok out) :
    out.paramsAfter = PyVal.dict (updatedParams st ts d)
    ∧ dictGet out.response "endpoint_params" = some out.paramsAfter
    ∧ dictGet (updatedParams st ts d) "token" = some st.token
    ∧ dictGet (updatedParams st ts d) "_" = some (PyVal.int ts)
    ∧ ∀ k, k ≠ "token" → k ≠ "_" →
        dictGet (updatedParams st ts d) k = dictGet d k := by
  obtain ⟨u, ps, req, hu, hp, hd, hout⟩ :=
    makeApiCall_ok_inv st url mode (PyVal.dict d) data jsonArg dbg true bare
      ts resp out h
  have hps : ps = PyVal.dict (updatedParams st ts d) := by
    unfold tokenizeParams at hp
    simp at hp
    exact hp.symm
  subst hps
  subst hout
  refine ⟨rfl, rfl, ?_, ?_, ?_⟩
  · rw [updatedParams, dictGet_dictSet_ne _ _ _ _ (by decide),
        dictGet_dictSet_self]
  · rw [updatedParams, dictGet_dictSet_self]
  · intro k hk1 hk2
    rw [updatedParams, dictGet_dictSet_ne _ _ _ _ (Ne.symm hk2),
        dictGet_dictSet_ne _ _ _ _ (Ne.symm hk1)]

/-- Witness for C9 at the same concrete call as the C1 witness. -/
theorem makeApiCall_updates_params_in_place_witness :
    CallOk.paramsAfter
      ⟨⟨"GET", PyVal.str "https://omada.example/api/v2/x",
        PyVal.dict [("a", PyVal.str "b"), ("token", PyVal.str "TOK"),
          ("_", PyVal.int 99)], PyVal.none, PyVal.none⟩,
       responseDict (PyVal.str "https://omada.example/api/v2/x")
         (PyVal.dict [("a", PyVal.str "b"), ("token", PyVal.str "TOK"),
           ("_", PyVal.int 99)]) (PyVal.dict []),
       PyVal.dict [("a", PyVal.str "b"), ("token", PyVal.str "TOK"),
         ("_", PyVal.int 99)]⟩ =
      PyVal.dict (updatedParams stSample 99 [("a", PyVal.str "b")])
    ∧ dictGet (responseDict (PyVal.str "https://omada.example/api/v2/x")
        (PyVal.dict [("a", PyVal.str "b"), ("token", PyVal.str "TOK"),
          ("_", PyVal.int 99)]) (PyVal.dict [])) "endpoint_params" =
        some (PyVal.dict [("a", PyVal.str "b"), ("token", PyVal.str "TOK"),
          ("_", PyVal.int 99)])
    ∧ dictGet (updatedParams stSample 99 [("a", PyVal.str "b")]) "token" =
        some stSample.token
    ∧ dictGet (updatedParams stSample 99 [("a", PyVal.str "b")]) "_" =
        some (PyVal.int 99)
    ∧ ∀ k, k ≠ "token" → k ≠ "_" →
        dictGet (updatedParams stSample 99 [("a", PyVal.str "b")]) k =
          dictGet [("a", PyVal.str "b")] k :=
  makeApiCall_updates_params_in_place stSample (PyVal.str "/x") "GET"
    [("a", PyVal.str "b")] PyVal.none PyVal.none false false 99
    (PyVal.dict []) _ rfl

/-- Claim C5: for every path string, `path_to_url` returns
`baseurl + "/api/v2" + path`, and `makeApiCall` routes its `url` argument
through `path_to_url` exactly when `bare_url` is falsy: with
`bare_url=False` every dispatched request's URL is the `path_to_url`
image of the argument, and with `bare_url` truthy it is the argument
itself. -/
theorem path_to_url_spec :
    (∀ (st : OmadaState) (b p : String), st.baseurl = PyVal.str b →
        path_to_url st (PyVal.str p) =
          Except.ok (PyVal.str (b ++ "/api/v2" ++ p)))
    ∧ (∀ (st : OmadaState) (url : PyVal) (mode : String)
        (eps data jsonArg : PyVal) (dbg inc : Bool) (ts : Int)
        (resp : PyVal) (req : Request),
        (makeApiCall st url mode eps data jsonArg dbg inc false ts resp).1 =
          [req] →
        path_to_url st url = Except.ok req.url)
    ∧ (∀ (st : OmadaState) (url : PyVal) (mode : String)
        (eps data jsonArg : PyVal) (dbg inc : Bool) (ts : Int)
        (resp : PyVal) (req : Request),
        (makeApiCall st url mode eps data jsonArg dbg inc true ts resp).1 =
          [req] →
        req.url = url) := by
  refine ⟨fun st b p hb => ?_, fun st url mode eps data jsonArg dbg inc ts resp req h => ?_,
         fun st url mode eps data jsonArg dbg inc ts resp req h => ?_⟩
  · rw [path_to_url, hb]
    simp [pyAdd, strAppend_assoc]
  · obtain ⟨u, ps, hu, hp, hd⟩ :=
      makeApiCall_sent_inv st url mode eps data jsonArg dbg inc false ts resp req h
    rw [resolveUrl] at hu
    simp at hu
    rw [hu, (dispatch_ok_inv mode u ps data jsonArg req hd).1]
  · obtain ⟨u, ps, hu, hp, hd⟩ :=
      makeApiCall_sent_inv st url mode eps data jsonArg dbg inc true ts resp req h
    rw [resolveUrl] at hu
    simp at hu
    rw [(dispatch_ok_inv mode u ps data jsonArg req hd).1, hu]

/-- Witness for C5: the sample client with string base URL, a non-bare
and a bare call. -/
theorem path_to_url_spec_witness :
    path_to_url stSample (PyVal.str "/x") =
      Except.ok (PyVal.str ("https://omada.example" ++ "/api/v2" ++ "/x"))
    ∧ path_to_url stSample (PyVal.str "/x") =
        Except.ok (Request.url
          ⟨"GET", PyVal.str "https://omada.example/api/v2/x",
           PyVal.dict [("token", PyVal.str "TOK"), ("_", PyVal.int 99)],
           PyVal.none, PyVal.none⟩)
    ∧ Request.url
        ⟨"GET", PyVal.str "/bare",
         PyVal.dict [("token", PyVal.str "TOK"), ("_", PyVal.int 99)],
         PyVal.none, PyVal.none⟩ = PyVal.str "/bare" :=
  ⟨path_to_url_spec.1 stSample "https://omada.example" "/x" rfl,
   path_to_url_spec.2.1 stSample (PyVal.str "/x") "GET" (PyVal.dict [])
     PyVal.none PyVal.none false true 99 (PyVal.dict []) _ rfl,
   path_to_url_spec.2.2 stSample (PyVal.str "/bare") "GET" (PyVal.dict [])
     PyVal.none PyVal.none false true 99 (PyVal.dict []) _ rfl⟩

/-- Claim C4 as stated is false: with the defaults `endpoint_params=None`
and `include_token=True`, an unsupported mode `"DELETE"` raises
`AttributeError` (from `None.update`), not `ValueError` — the update step
preempts the mode check. -/
theorem makeApiCall_valueError_preempted :
    (makeApiCall stSample (PyVal.str "/x") "DELETE" PyVal.none PyVal.none
        PyVal.none false true false 0 PyVal.none).2 =
      Except.error PyErr.attributeError
    ∧ ("DELETE" ≠ "GET" ∧ "DELETE" ≠ "POST" ∧ "DELETE" ≠ "PATCH")
    ∧ ∀ m, (makeApiCall stSample (PyVal.str "/x") "DELETE" PyVal.none
        PyVal.none PyVal.none false true false 0 PyVal.none).2 ≠
          Except.error (PyErr.valueError m) := by
  refine ⟨rfl, by decide, fun m h => ?_⟩
  rw [show (makeApiCall stSample (PyVal.str "/x") "DELETE" PyVal.none
      PyVal.none PyVal.none false true false 0 PyVal.none).2 =
      Except.error PyErr.attributeError from rfl] at h
  simp at h

/-- Claim C4 (amended): provided the URL step and the parameter step do
not raise first (in particular `endpoint_params` is a dict whenever
`include_token` is true), `makeApiCall` raises `ValueError` if and only
if `mode` is none of `"GET"`, `"POST"`, `"PATCH"`, and in that case no
HTTP request is dispatched. -/
theorem makeApiCall_valueError_iff (st : OmadaState) (url : PyVal)
    (mode : String) (eps data jsonArg : PyVal) (dbg inc bare : Bool)
    (ts : Int) (resp : PyVal)
    (hu : ∃ u, resolveUrl st url bare = Except.ok u)
    (hp : ∃ ps, tokenizeParams st eps inc ts = Except.ok ps) :
    ((∃ m, (makeApiCall st url mode eps data jsonArg dbg inc bare ts
        resp).2 = Except.error (PyErr.valueError m)) ↔
      (mode ≠ "GET" ∧ mode ≠ "POST" ∧ mode ≠ "PATCH"))
    ∧ ((mode ≠ "GET" ∧ mode ≠ "POST" ∧ mode ≠ "PATCH") →
        (makeApiCall st url mode eps data jsonArg dbg inc bare ts
          resp).1 = []) := by
  obtain ⟨u, hu⟩ := hu
  obtain ⟨ps, hp⟩ := hp
  by_cases h1 : mode = "GET"
  · refine ⟨⟨fun ⟨m, hm⟩ => ?_, fun ⟨hg, _, _⟩ => absurd h1 hg⟩,
            fun ⟨hg, _, _⟩ => absurd h1 hg⟩
    simp [makeApiCall, hu, hp, dispatch, h1] at hm
  by_cases h2 : mode = "POST"
  · refine ⟨⟨fun ⟨m, hm⟩ => ?_, fun ⟨_, hg, _⟩ => absurd h2 hg⟩,
            fun ⟨_, hg, _⟩ => absurd h2 hg⟩
    simp [makeApiCall, hu, hp, dispatch, h1, h2] at hm
  by_cases h3 : mode = "PATCH"
  · refine ⟨⟨fun ⟨m, hm⟩ => ?_, fun ⟨_, _, hg⟩ => absurd h3 hg⟩,
            fun ⟨_, _, hg⟩ => absurd h3 hg⟩
    simp [makeApiCall, hu, hp, dispatch, h1, h2, h3] at hm
  · have hdisp : dispatch mode u ps data jsonArg =
        Except.error (PyErr.valueError ("Unsupported mode " ++ mode)) := by
      simp [dispatch, h1, h2, h3]
    exact ⟨⟨fun _ => ⟨h1, h2, h3⟩,
            fun _ => ⟨"Unsupported mode " ++ mode,
              by simp [makeApiCall, hu, hp, hdisp]⟩⟩,
           fun _ => by simp [makeApiCall, hu, hp, hdisp]⟩

/-- Witness for the amended C4: a concrete `"DELETE"` call with a dict
`endpoint_params` raises `ValueError` and dispatches nothing. -/
theorem makeApiCall_valueError_iff_witness :
    (∃ m, (makeApiCall stSample (PyVal.str "/x") "DELETE" (PyVal.dict [])
        PyVal.none PyVal.none false true false 0 PyVal.none).2 =
      Except.error (PyErr.valueError m))
    ∧ (makeApiCall stSample (PyVal.str "/x") "DELETE" (PyVal.dict [])
        PyVal.none PyVal.none false true false 0 PyVal.none).1 = [] :=
  have h := makeApiCall_valueError_iff stSample (PyVal.str "/x") "DELETE"
    (PyVal.dict []) PyVal.none PyVal.none false true false 0 PyVal.none
    ⟨PyVal.str "https://omada.example/api/v2/x", rfl⟩
    ⟨PyVal.dict [("token", PyVal.str "TOK"), ("_", PyVal.int 0)], rfl⟩
  ⟨h.1.mpr (by decide), h.2 (by decide)⟩

/-- Claim C6: when the parsed login response is a dict `d` with
`d["result"]["token"] = t` (and the base URL is a string so the POST goes
out), `login` stores `t` in the client's `token` field and returns that
same value. -/
theorem login_extracts_token (st : OmadaState) (b : String) (ts : Int)
    (d r : List (String × PyVal)) (t : PyVal)
    (hb : st.baseurl = PyVal.str b)
    (hr : dictGet d "result" = some (PyVal.dict r))
    (ht : dictGet r "token" = some t) :
    login st ts (PyVal.dict d) = Except.ok ({ st with token := t }, t) := by
  have hu : resolveUrl st (PyVal.str "/login") false =
      Except.ok (PyVal.str (b ++ "/api/v2" ++ "/login")) := by
    rw [resolveUrl]
    simp [path_to_url, hb, pyAdd, strAppend_assoc]
  have hcall := makeApiCall_eq_ok st (PyVal.str "/login") "POST" PyVal.none
    PyVal.none (PyVal.dict [("username", st.login_username),
      ("password", st.login_password)]) true false false ts (PyVal.dict d)
    (PyVal.str (b ++ "/api/v2" ++ "/login")) PyVal.none
    ⟨"POST", PyVal.str (b ++ "/api/v2" ++ "/login"), PyVal.none, PyVal.none,
     PyVal.dict [("username", st.login_username),
       ("password", st.login_password)]⟩
    hu rfl rfl
  unfold login
  dsimp only
  rw [hcall]
  dsimp only
  rw [show pySubscript (PyVal.dict (responseDict
      (PyVal.str (b ++ "/api/v2" ++ "/login")) PyVal.none (PyVal.dict d)))
      "json_data" = Except.ok (PyVal.dict d) from rfl]
  dsimp only
  have h1 : pySubscript (PyVal.dict d) "result" = Except.ok (PyVal.dict r) := by
    unfold pySubscript
    dsimp only
    rw [hr]
  rw [h1]
  dsimp only
  have h2 : pySubscript (PyVal.dict r) "token" = Except.ok t := by
    unfold pySubscript
    dsimp only
    rw [ht]
  rw [h2]

/-- Witness for C6: a concrete login response carrying token `"T"`. -/
theorem login_extracts_token_witness :
    login stSample 2
        (PyVal.dict [("errorCode", PyVal.int 0),
          ("result", PyVal.dict [("token", PyVal.str "T")])]) =
      Except.ok ({ stSample with token := PyVal.str "T" }, PyVal.str "T") :=
  login_extracts_token stSample "https://omada.example" 2
    [("errorCode", PyVal.int 0),
     ("result", PyVal.dict [("token", PyVal.str "T")])]
    [("token", PyVal.str "T")] (PyVal.str "T") rfl rfl rfl

/-- Claim C7: when the config file exists, the constructor takes all five
settings from the loaded YAML mapping and the `baseurl`/`site`/`verify`
arguments are ignored — the result does not depend on them (nor on the
prompt input, which is never read). -/
theorem init_config_uses_yaml (cfg b1 s1 v1 b2 s2 v2 : PyVal)
    (ui1 ui2 : String × String) (ts1 ts1' ts2 : Int)
    (resp1 resp1' resp2 : PyVal) :
    initOmada true cfg b1 s1 v1 ui1 ts1 ts2 resp1 resp2 =
      initOmada true cfg b2 s2 v2 ui2 ts1' ts2 resp1' resp2
    ∧ ∀ (m : List (String × PyVal)) (bu si ve un pw : PyVal)
        (st : OmadaState),
        cfg = PyVal.dict m →
        dictGet m "baseurl" = some bu →
        dictGet m "site" = some si →
        dictGet m "verify" = some ve →
        dictGet m "username" = some un →
        dictGet m "password" = some pw →
        initOmada true cfg b1 s1 v1 ui1 ts1 ts2 resp1 resp2 =
          Except.ok st →
        st.baseurl = bu ∧ st.site = si ∧ st.verify = ve ∧
          st.login_username = un ∧ st.login_password = pw := by
  constructor
  · rfl
  · intro m bu si ve un pw st hcfg hb hs hv hun hpw hinit
    subst hcfg
    unfold initOmada at hinit
    rw [if_pos rfl] at hinit
    rw [show pySubscript (PyVal.dict m) "baseurl" = Except.ok bu by
          unfold pySubscript; dsimp only; rw [hb]] at hinit
    dsimp only at hinit
    rw [show pySubscript (PyVal.dict m) "site" = Except.ok si by
          unfold pySubscript; dsimp only; rw [hs]] at hinit
    dsimp only at hinit
    rw [show pySubscript (PyVal.dict m) "verify" = Except.ok ve by
          unfold pySubscript; dsimp only; rw [hv]] at hinit
    dsimp only at hinit
    rw [show pySubscript (PyVal.dict m) "username" = Except.ok un by
          unfold pySubscript; dsimp only; rw [hun]] at hinit
    dsimp only at hinit
    rw [show pySubscript (PyVal.dict m) "password" = Except.ok pw by
          unfold pySubscript; dsimp only; rw [hpw]] at hinit
    dsimp only at hinit
    rcases hl : login ⟨bu, si, ve, un, pw, PyVal.none, PyVal.none⟩ ts2 resp2
      with e | pr <;> rw [hl] at hinit <;> dsimp only at hinit
    · simp at hinit
    obtain ⟨st2, tok⟩ := pr
    have hst2 := login_ok_inv _ _ _ _ _ hl
    simp at hinit
    rw [← hinit, hst2]
    exact ⟨rfl, rfl, rfl, rfl, rfl⟩

/-- Witness for C7: a concrete config mapping; two inits with different
constructor arguments agree and the fields come from the mapping. -/
theorem init_config_uses_yaml_witness :
    (initOmada true
        (PyVal.dict [("baseurl", PyVal.str "B"), ("site", PyVal.str "S"),
          ("verify", PyVal.bool false), ("username", PyVal.str "U"),
          ("password", PyVal.str "P")])
        (PyVal.str "ARG") (PyVal.str "ARG") (PyVal.bool true) ("a", "b") 1 2
        (PyVal.dict [])
        (PyVal.dict [("result", PyVal.dict [("token", PyVal.str "T")])]) =
      initOmada true
        (PyVal.dict [("baseurl", PyVal.str "B"), ("site", PyVal.str "S"),
          ("verify", PyVal.bool false), ("username", PyVal.str "U"),
          ("password", PyVal.str "P")])
        PyVal.none PyVal.none PyVal.none ("c", "d") 3 2 (PyVal.dict [])
        (PyVal.dict [("result", PyVal.dict [("token", PyVal.str "T")])]))
    ∧ OmadaState.baseurl
        ⟨PyVal.str "B", PyVal.str "S", PyVal.bool false, PyVal.str "U",
         PyVal.str "P", PyVal.str "T", PyVal.str "T"⟩ = PyVal.str "B"
    ∧ OmadaState.site
        ⟨PyVal.str "B", PyVal.str "S", PyVal.bool false, PyVal.str "U",
         PyVal.str "P", PyVal.str "T", PyVal.str "T"⟩ = PyVal.str "S"
    ∧ OmadaState.verify
        ⟨PyVal.str "B", PyVal.str "S", PyVal.bool false, PyVal.str "U",
         PyVal.str "P", PyVal.str "T", PyVal.str "T"⟩ = PyVal.bool false
    ∧ OmadaState.login_username
        ⟨PyVal.str "B", PyVal.str "S", PyVal.bool false, PyVal.str "U",
         PyVal.str "P", PyVal.str "T", PyVal.str "T"⟩ = PyVal.str "U"
    ∧ OmadaState.login_password
        ⟨PyVal.str "B", PyVal.str "S", PyVal.bool false, PyVal.str "U",
         PyVal.str "P", PyVal.str "T", PyVal.str "T"⟩ = PyVal.str "P" :=
  have h := init_config_uses_yaml
    (PyVal.dict [("baseurl", PyVal.str "B"), ("site", PyVal.str "S"),
      ("verify", PyVal.bool false), ("username", PyVal.str "U"),
      ("password", PyVal.str "P")])
    (PyVal.str "ARG") (PyVal.str "ARG") (PyVal.bool true)
    PyVal.none PyVal.none PyVal.none ("a", "b") ("c", "d") 1 3 2
    (PyVal.dict []) (PyVal.dict [])
    (PyVal.dict [("result", PyVal.dict [("token", PyVal.str "T")])])
  have h2 := h.2 [("baseurl", PyVal.str "B"), ("site", PyVal.str "S"),
      ("verify", PyVal.bool false), ("username", PyVal.str "U"),
      ("password", PyVal.str "P")]
    (PyVal.str "B") (PyVal.str "S") (PyVal.bool false) (PyVal.str "U")
    (PyVal.str "P")
    ⟨PyVal.str "B", PyVal.str "S", PyVal.bool false, PyVal.str "U",
     PyVal.str "P", PyVal.str "T", PyVal.str "T"⟩
    rfl rfl rfl rfl rfl rfl rfl
  ⟨h.1, h2.1, h2.2.1, h2.2.2.1, h2.2.2.2.1, h2.2.2.2.2⟩

/-- Claim C2 is contradicted by the code: with no config file, the
credentials typed at the prompt are discarded.  `login_prompt` reads the
two strings, sends the string literals `"login_username"` and
`"login_password"` to `/login` instead, and returns `(None, None)`, so
after `__init__` both `login_username` and `login_password` are `None` —
not the entered `"alice"`/`"secret"` — and `login()` posts those `None`
values as the credentials. -/
theorem init_prompt_discards_credentials :
    initOmada false (PyVal.dict []) (PyVal.str "https://omada.example")
        (PyVal.str "Default") (PyVal.bool true) ("alice", "secret") 1 2
        (PyVal.dict [])
        (PyVal.dict [("result", PyVal.dict [("token", PyVal.str "T")])]) =
      Except.ok ⟨PyVal.str "https://omada.example", PyVal.str "Default",
        PyVal.bool true, PyVal.none, PyVal.none, PyVal.str "T",
        PyVal.str "T"⟩
    ∧ PyVal.none ≠ PyVal.str "alice"
    ∧ PyVal.none ≠ PyVal.str "secret" := by
  refine ⟨rfl, fun h => ?_, fun h => ?_⟩ <;> cases h
